import Mathlib

/-!
Verification development for the eBird rare-bird-alert fetcher
(src/ebird_fetcher.py). The Python module is shallowly embedded below:
pure text manipulation becomes functions on `List Char` / `String`,
BeautifulSoup query results become fields of a `Card` structure (each field
records the result of one fixed query against the record fragment), the
JSON seen-set dictionary becomes an association list, and fallible I/O
becomes explicit parameters (`Option` / `Except`).
-/

namespace EBirdFetcher

/-! ### Python text primitives -/

/-- Python whitespace class `\s` = `[ \t\n\r\f\v]` (ASCII), also the set
stripped by `str.strip()`. -/
def isPySpace (c : Char) : Bool :=
  c = ' ' || c = '\t' || c = '\n' || c = '\r' || c = '\x0b' || c = '\x0c'

/-- `str.strip()` on a character list: drop whitespace from both ends. -/
def pyStripList (s : List Char) : List Char :=
  ((s.dropWhile isPySpace).reverse.dropWhile isPySpace).reverse

/-- `str.strip()`. -/
def pyStrip (s : String) : String :=
  (pyStripList s.data).asString

/-- Replace every non-overlapping occurrence of `p :: ps` left-to-right.
Recursion is structural on a fuel argument so that the kernel can
evaluate it; the fuel is always instantiated with the length of the
scanned list, which suffices (each step consumes at least one character
and at least as much fuel). -/
def replListAux (p : Char) (ps rep : List Char) : Nat → List Char → List Char
  | _, [] => []
  | 0, s => s
  | fuel + 1, c :: rest =>
    if (p :: ps).isPrefixOf (c :: rest) then
      rep ++ replListAux p ps rep fuel (rest.drop ps.length)
    else
      c :: replListAux p ps rep fuel rest

/-- `str.replace(pat, rep)`; the source only calls it with the non-empty
pattern `"obs-OBS"`, so the empty-pattern case (never exercised) is
the identity. -/
def pyReplace (s pat rep : String) : String :=
  match pat.data with
  | [] => s
  | p :: ps => (replListAux p ps rep.data s.data.length s.data).asString

/-- Substring test, Python `pat in s` (contiguous, non-overlapping scan). -/
def containsLit (pat : List Char) : List Char → Bool
  | [] => pat.isPrefixOf []
  | c :: rest => pat.isPrefixOf (c :: rest) || containsLit pat rest

/-- The characters after the first occurrence of `pat`, or `none` when
`pat` does not occur. -/
def afterFirstLit (pat : List Char) : List Char → Option (List Char)
  | [] => none
  | c :: rest =>
    if pat.isPrefixOf (c :: rest) then some ((c :: rest).drop pat.length)
    else afterFirstLit pat rest

/-- The characters before the next occurrence of `pat` (all of them when
`pat` does not occur). -/
def takeUntilLit (pat : List Char) : List Char → List Char
  | [] => []
  | c :: rest =>
    if pat.isPrefixOf (c :: rest) then [] else c :: takeUntilLit pat rest

/-- Python `s.split(sep)[1]` for a non-empty separator, defined when `sep`
occurs in `s`: the text between the first occurrence of `sep` and the next
occurrence (or the end). `none` exactly when `sep` does not occur, i.e. when
the source's `sep in s` test fails. -/
def splitSecondSeg (pat : List Char) (s : List Char) : Option (List Char) :=
  (afterFirstLit pat s).map (takeUntilLit pat)

/-! ### The two `re.search` calls of the source, modelled concretely

`re.search(r'Number observed:\s*(.+)', text)` (source line 138): scan for
an occurrence of the literal; after it, `\s*` greedily eats whitespace and
`(.+)` then captures the maximal run of non-newline characters, which is
non-empty. When everything after the whitespace is exhausted, the engine
backtracks `\s*` one character at a time, so the capture becomes the last
non-newline whitespace character (a single character, since everything
after it is newlines); when even that fails the engine retries at the next
occurrence of the literal. -/

def countLit : List Char := ("Number observed:").data

/-- Attempt the `\s*(.+)` tail of the count pattern at a position right
after the literal. Returns the captured group. -/
def countMatchAfter (rest : List Char) : Option (List Char) :=
  let w := rest.takeWhile isPySpace
  let r := rest.dropWhile isPySpace
  match r with
  | [] =>
    match (w.reverse.find? fun c => c != '\n') with
    | some c => some [c]
    | none => none
  | c :: r2 => some ((c :: r2).takeWhile fun d => d != '\n')

/-- Whole-string scan of `re.search(r'Number observed:\s*(.+)', s)`,
returning `group(1)`. -/
def countRegexAux : List Char → Option (List Char)
  | [] => none
  | c :: rest =>
    if countLit.isPrefixOf (c :: rest) then
      match countMatchAfter ((c :: rest).drop countLit.length) with
      | some g => some g
      | none => countRegexAux rest
    else countRegexAux rest

/-- `re.search(r'Number observed:\s*(.+)', s)` and `.group(1)`. -/
def countRegexSearch (s : String) : Option String :=
  (countRegexAux s.data).map List.asString

/-! `re.search(r'Observer:</span>\s*<span>\s*(.*?)\s*</span>', html)`
(source line 188). After the literal `Observer:</span>`, the first `\s*`
deterministically eats the whitespace run (the following `<span>` starts
with a non-whitespace character, so no backtracking arises); after
`<span>` the next `\s*` likewise eats the whitespace run, and the lazy
group `(.*?)` then grows one non-newline character at a time until
`\s*</span>` matches at the current position. Backtracking the second
`\s*` cannot turn a failed lazy scan into a success (it only prepends
whitespace to the candidate capture without creating new closing
positions), so the scan below is exact. -/

def obsLit : List Char := ("Observer:</span>").data

def spanOpenLit : List Char := ("<span>").data

def spanCloseLit : List Char := ("</span>").data

/-- Does `\s*</span>` match at this position? -/
def obsCloses (u : List Char) : Bool :=
  spanCloseLit.isPrefixOf (u.dropWhile isPySpace)

/-- The lazy group scan: extend the capture (accumulated reversed in
`acc`) until `\s*</span>` matches; `.` never matches a newline. -/
def obsLazy : List Char → List Char → Option (List Char)
  | [], _ => none
  | c :: rest, acc =>
    if obsCloses (c :: rest) then some acc.reverse
    else if c = '\n' then none
    else obsLazy rest (c :: acc)

/-- Attempt the tail of the observer pattern right after the literal. -/
def obsMatchAfter (rest : List Char) : Option (List Char) :=
  let r2 := rest.dropWhile isPySpace
  if spanOpenLit.isPrefixOf r2 then
    obsLazy ((r2.drop spanOpenLit.length).dropWhile isPySpace) []
  else none

/-- Whole-string scan for the observer pattern, returning `group(1)`
(the source applies no `strip` to this group). -/
def obsRegexAux : List Char → Option (List Char)
  | [] => none
  | c :: rest =>
    if obsLit.isPrefixOf (c :: rest) then
      match obsMatchAfter ((c :: rest).drop obsLit.length) with
      | some g => some g
      | none => obsRegexAux rest
    else obsRegexAux rest

/-- `re.search(r'Observer:</span>\s*<span>\s*(.*?)\s*</span>', s)` and
`.group(1)`. -/
def obsRegexSearch (s : String) : Option String :=
  (obsRegexAux s.data).map List.asString

/-! ### The record-fragment model

Each field of `Card` records the result of one fixed BeautifulSoup query
that `fetch_alerts` performs against one `.Observation` card, at the
places noted. The source queries the same selector
`.Observation-meta a[href*="/checklist/"]` twice (lines 90 and 146); both
reads are the `dateLink` field. -/

/-- A `<span>` element: its `class` attribute list and its `.text`. -/
structure Span where
  classes : List String
  text : String
deriving DecidableEq

/-- An `<a>` element produced by an `a[href*=...]` selector (such
elements always carry an `href` attribute, so the source's
`'href' in date_link.attrs` test at line 94 is folded in). -/
structure Link where
  href : String
  text : String
deriving DecidableEq

/-- `select_one('.Observation-species a')`: the texts of its
`.Heading-main` and `.Heading-sub` sub-elements, when present. -/
structure SpeciesLink where
  headingMainText : Option String
  headingSubText : Option String
deriving DecidableEq

/-- `select_one('.Observation-numberObserved')`: its `find_all('span')`
results and its full `.text`. -/
structure CountContainer where
  spans : List Span
  allText : String
deriving DecidableEq

/-- One result of `card.find_all('span', class_='is-visuallyHidden')`
(line 157) together with its `find_next_sibling('span')`. -/
structure HiddenLabel where
  text : String
  nextSiblingSpan : Option Span
deriving DecidableEq

/-- A `select_one('.GridFlex-cell.u-sizeFill')` result: its
`find_all('span')` list. -/
structure FillCell where
  spans : List Span
deriving DecidableEq

/-- One ancestor element of the user icon (nearest first): its tag name,
its `class` list, its `.GridFlex-cell.u-sizeFill` sub-query result, and
its `str(...)` serialization. -/
structure AncestorElem where
  tag : String
  classes : List String
  fillCell : Option FillCell
  rawHtml : String
deriving DecidableEq

/-- `select_one('.Icon--user')`: all we need of the icon is its ancestor
chain, nearest first. -/
structure UserIcon where
  ancestors : List AncestorElem
deriving DecidableEq

/-- One `.Observation` card, as the fixed set of query results the
extractor reads from it. -/
structure Card where
  idAttr : Option String
  dateLink : Option Link
  speciesLink : Option SpeciesLink
  countContainer : Option CountContainer
  locLink : Option Link
  hiddenLabels : List HiddenLabel
  userIcon : Option UserIcon
deriving DecidableEq

/-- One extracted observation record (the dictionary built at
lines 193-202). -/
structure Observation where
  id : String
  species : String
  scientificName : String
  count : String
  date : String
  location : String
  observer : String
  checklistUrl : String
deriving DecidableEq

/-- BeautifulSoup `find_parent(name)`: the nearest ancestor whose TAG
NAME equals `name` (it does not interpret CSS selectors), returned with
its own remaining ancestor chain. -/
def findParentFrom (tagName : String) :
    List AncestorElem → Option (AncestorElem × List AncestorElem)
  | [] => none
  | e :: rest =>
    if e.tag = tagName then some (e, rest) else findParentFrom tagName rest

/-- The tier-1 observer loop (lines 157-164): walk the hidden labels in
order; at a label whose stripped text is exactly `Observer:`, read the
next sibling span and stop — but only when that sibling exists, otherwise
keep scanning. -/
def observerLabelLoop : List HiddenLabel → String → String
  | [], observer => observer
  | l :: rest, observer =>
    if pyStrip l.text = ("Observer:") then
      match l.nextSiblingSpan with
      | some sp => pyStrip sp.text
      | none => observerLabelLoop rest observer
    else observerLabelLoop rest observer

def checklistSeg : List Char := ("/checklist/").data

/-- Field extraction for one card: lines 86-202 of the source. -/
def extractObservation (card : Card) : Observation :=
  let obs_id := pyReplace (card.idAttr.getD ("")) ("obs-OBS") ("")
  let checklist_url :=
    match card.dateLink with
    | some dl =>
      match splitSecondSeg checklistSeg dl.href.data with
      | some cid => ("https://ebird.org/checklist/") ++ cid.asString
      | none => ("https://ebird.org/checklist/") ++ obs_id
    | none => ("https://ebird.org/checklist/") ++ obs_id
  let species :=
    match card.speciesLink with
    | some sl =>
      match sl.headingMainText with
      | some t => pyStrip t
      | none => ("")
    | none => ("Unknown Species")
  let scientific_name :=
    match card.speciesLink with
    | some sl =>
      match sl.headingSubText with
      | some t => pyStrip t
      | none => ("")
    | none => ("")
  let count :=
    match card.countContainer with
    | none => ("Unknown")
    | some cc =>
      let nonHidden :=
        (cc.spans.filter fun sp =>
          !(sp.classes.contains ("is-visuallyHidden"))).map fun sp => pyStrip sp.text
      let count1 :=
        if nonHidden.isEmpty then
          match countRegexSearch (pyStrip cc.allText) with
          | some g => pyStrip g
          | none => ("Unknown")
        else
          String.intercalate (" ") nonHidden
      pyStrip (pyReplace count1 ("Number observed:") (""))
  let date_str :=
    match card.dateLink with
    | some dl => pyStrip dl.text
    | none => ("Unknown Date")
  let location :=
    match card.locLink with
    | some ll => pyStrip ll.text
    | none => ("Unknown Location")
  let observer1 := observerLabelLoop card.hiddenLabels ("eBird User")
  let observer2 :=
    if observer1 = ("eBird User") then
      match card.userIcon with
      | none => observer1
      | some icon =>
        match findParentFrom (".GridFlex--flex") icon.ancestors with
        | none => observer1
        | some (flexC, _) =>
          match flexC.fillCell with
          | none => observer1
          | some cell =>
            if cell.spans.length ≥ 2 then pyStrip (cell.spans.getD 1 ⟨[], ("")⟩).text
            else observer1
    else observer1
  let observer3 :=
    if observer2 = ("eBird User") then
      match card.userIcon with
      | none => observer2
      | some icon =>
        match findParentFrom (".GridFlex-cell") icon.ancestors with
        | none => observer2
        | some (_pcell, above) =>
          match findParentFrom ("div") above with
          | none => observer2
          | some (pdiv, _) =>
            match obsRegexSearch pdiv.rawHtml with
            | some nm => nm
            | none => observer2
    else observer2
  { id := obs_id
    species := species
    scientificName := scientific_name
    count := count
    date := date_str
    location := location
    observer := observer3
    checklistUrl := checklist_url }

/-! ### The document parser loop (lines 80-209)

`fetch_alerts` iterates over the `.Observation` cards in document order;
each card's extraction is wrapped in `try ... except` (lines 85, 206-207):
a fault while extracting one card is logged and that card is skipped. A
fragment is therefore either a card, or an exception-equivalent fault
carrying its message. -/

inductive Fragment where
  | card (c : Card)
  | malformed (msg : String)
deriving DecidableEq

/-- Extraction of one fragment: a well-formed card extracts to its record,
a malformed fragment raises (modelled as `Except.error`). -/
def extractFragment : Fragment → Except String Observation
  | .card c => .ok (extractObservation c)
  | .malformed m => .error m

/-- The per-card loop of `fetch_alerts` (lines 84-208): append each
successfully extracted record, skip (and log) each fault. The function is
total: no exception escapes. -/
def fetch_alerts : List Fragment → List Observation
  | [] => []
  | f :: rest =>
    match extractFragment f with
    | .ok o => o :: fetch_alerts rest
    | .error _ => fetch_alerts rest

/-! ### The seen-set store and the diff engine

`previous_alerts` is a JSON object mapping a county `alert_id` to the list
of observation ids already seen; we embed it as an association list with
dictionary update semantics (`setSeen` replaces the value of an existing
key in place and appends a new key at the end). -/

/-- The persisted/in-memory mapping from `alert_id` to seen ids. -/
abbrev SeenSet := List (String × List String)

/-- Python `dict` lookup (`previous_alerts[alert_id]` / `in` test). -/
def lookupSeen (k : String) : SeenSet → Option (List String)
  | [] => none
  | e :: rest => if e.1 = k then some e.2 else lookupSeen k rest

/-- Python `dict` assignment `previous_alerts[k] = v`. -/
def setSeen (k : String) (v : List String) : SeenSet → SeenSet
  | [] => [(k, v)]
  | e :: rest => if e.1 = k then (k, v) :: rest else e :: setSeen k v rest

/-- The filtering loop of `get_new_alerts` (lines 232-237): for each
alert in order, when its id is not yet in the county's list, append the
alert to the result and its id to the list (so later duplicates compare
against the grown list). Returns the new alerts and the final id list. -/
def diffLoop : List String → List Observation → List Observation × List String
  | seenIds, [] => ([], seenIds)
  | seenIds, a :: rest =>
    if a.id ∈ seenIds then diffLoop seenIds rest
    else
      let res := diffLoop (seenIds ++ [a.id]) rest
      (a :: res.1, res.2)

/-- `get_new_alerts` (lines 215-243) without the I/O: the fetch result is
the `all_alerts` parameter (exactly how `test_detection.py` drives it) and
the save step is modelled separately. Initializes a missing county entry
to `[]` (lines 229-230), then filters, then stores the updated id list. -/
def get_new_alerts (alert_id : String) (all_alerts : List Observation)
    (previous_alerts : SeenSet) : List Observation × SeenSet :=
  let prev1 :=
    match lookupSeen alert_id previous_alerts with
    | none => setSeen alert_id [] previous_alerts
    | some _ => previous_alerts
  let res := diffLoop ((lookupSeen alert_id prev1).getD []) all_alerts
  (res.1, setSeen alert_id res.2 prev1)

/-- `_load_previous_alerts` (lines 32-49). The storage file is `none`
when missing (`os.path.exists` false) and `some content` otherwise;
`deserialize` models `json.load`, with `none` standing for a raised
deserialization error, which the source catches, logs and converts to
`{}` (lines 43-45). In the missing-file branch the source first runs
`os.makedirs(os.path.dirname(self.data_storage_file), exist_ok=True)`
(line 48) OUTSIDE any try/except; `makedirsResult` models that OS call
(`.error` = it raised, as it does for an empty directory component, a
permission denial, or a path component that exists as a regular file),
and such a failure propagates to the caller uncaught. -/
def load_previous_alerts (deserialize : String → Option SeenSet)
    (makedirsResult : Except String Unit) : Option String → Except String SeenSet
  | some content =>
    match deserialize content with
    | some d => Except.ok d
    | none => Except.ok []
  | none =>
    match makedirsResult with
    | Except.ok _ => Except.ok []
    | Except.error e => Except.error e

/-- `get_new_alerts` including the save step (lines 239-241 calling
`_save_previous_alerts`, lines 51-57). `writeResult` models the attempted
file write (`.error e` = `open`/`json.dump` raised, e.g. disk full or
permission denied). The `except` block catches any such error and only
logs it (line 56-57), so the caller always receives the new alerts as a
success value and the in-memory seen set keeps the cycle's updates.
Returns (what the caller sees, the in-memory seen set afterwards, the
logged error if any). -/
def get_new_alerts_cycle (alert_id : String) (all_alerts : List Observation)
    (previous_alerts : SeenSet) (writeResult : Except String Unit) :
    Except String (List Observation) × SeenSet × Option String :=
  let res := get_new_alerts alert_id all_alerts previous_alerts
  if res.1.isEmpty then (.ok res.1, res.2, none)
  else
    match writeResult with
    | .ok _ => (.ok res.1, res.2, none)
    | .error e => (.ok res.1, res.2, some (("Error saving previous alerts: ") ++ e))

/-- The storage-file contents observable by a concurrent reader around
`_save_previous_alerts` (lines 53-55): the previous content; then the
empty file, because `open(self.data_storage_file, 'w')` truncates the
target file in place before anything is written; then the fully written
new serialization. There is no write-to-temporary-then-rename step. -/
def saveFileStates (oldContent newContent : String) : List String :=
  [oldContent, (""), newContent]

/-! ### Lemmas about the diff loop -/

theorem diffLoop_snd (cands : List Observation) :
    ∀ seen : List String,
      (diffLoop seen cands).2 = seen ++ ((diffLoop seen cands).1.map fun o => o.id) := by
  induction cands with
  | nil => intro seen; simp [diffLoop]
  | cons a rest ih =>
    intro seen
    by_cases h : a.id ∈ seen
    · simp [diffLoop, h, ih seen]
    · simp [diffLoop, h, ih (seen ++ [a.id])]

theorem mem_id_diffLoop_snd (cands : List Observation) :
    ∀ (seen : List String) (c : Observation), c ∈ cands →
      c.id ∈ (diffLoop seen cands).2 := by
  induction cands with
  | nil => intro seen c hc; simp at hc
  | cons a rest ih =>
    intro seen c hc
    by_cases h : a.id ∈ seen
    · have hsnd : (diffLoop seen (a :: rest)).2 = (diffLoop seen rest).2 := by
        simp [diffLoop, h]
      rcases List.mem_cons.mp hc with h1 | h2
      · have hcid : c.id ∈ seen := by rw [h1]; exact h
        rw [hsnd, diffLoop_snd]
        exact List.mem_append_left _ hcid
      · rw [hsnd]
        exact ih seen c h2
    · have hsnd : (diffLoop seen (a :: rest)).2 = (diffLoop (seen ++ [a.id]) rest).2 := by
        simp [diffLoop, h]
      rcases List.mem_cons.mp hc with h1 | h2
      · have hcid : c.id ∈ seen ++ [a.id] := by rw [h1]; simp
        rw [hsnd, diffLoop_snd]
        exact List.mem_append_left _ hcid
      · rw [hsnd]
        exact ih (seen ++ [a.id]) c h2

theorem diffLoop_fst_of_all_seen (cands : List Observation) :
    ∀ seen : List String, (∀ c ∈ cands, c.id ∈ seen) →
      (diffLoop seen cands).1 = [] := by
  induction cands with
  | nil => intro seen _; simp [diffLoop]
  | cons a rest ih =>
    intro seen hall
    have ha : a.id ∈ seen := hall a (by simp)
    have : (diffLoop seen (a :: rest)).1 = (diffLoop seen rest).1 := by
      simp [diffLoop, ha]
    rw [this]
    exact ih seen fun c hc => hall c (List.mem_cons_of_mem _ hc)

theorem diffLoop_fst_id_not_mem (cands : List Observation) :
    ∀ (seen : List String) (r : Observation), r ∈ (diffLoop seen cands).1 →
      r.id ∉ seen := by
  induction cands with
  | nil => intro seen r hr; simp [diffLoop] at hr
  | cons a rest ih =>
    intro seen r hr
    by_cases h : a.id ∈ seen
    · exact ih seen r (by simpa [diffLoop, h] using hr)
    · have hr2 : r = a ∨ r ∈ (diffLoop (seen ++ [a.id]) rest).1 := by
        simpa [diffLoop, h] using hr
      rcases hr2 with h1 | h2
      · subst h1; exact h
      · intro hmem
        exact ih (seen ++ [a.id]) r h2 (List.mem_append_left _ hmem)

theorem diffLoop_fst_id_nodup (cands : List Observation) :
    ∀ seen : List String, ((diffLoop seen cands).1.map fun o => o.id).Nodup := by
  induction cands with
  | nil => intro seen; simp [diffLoop]
  | cons a rest ih =>
    intro seen
    by_cases h : a.id ∈ seen
    · simpa [diffLoop, h] using ih seen
    · have hfst : (diffLoop seen (a :: rest)).1 = a :: (diffLoop (seen ++ [a.id]) rest).1 := by
        simp [diffLoop, h]

      rw [hfst, List.map_cons, List.nodup_cons]
      refine ⟨?_, ih (seen ++ [a.id])⟩
      intro hmem
      rcases List.mem_map.mp hmem with ⟨r, hr, hid⟩
      exact diffLoop_fst_id_not_mem rest (seen ++ [a.id]) r hr
        (by rw [hid]; exact List.mem_append_right _ (by simp))

theorem diffLoop_fst_find (cands : List Observation) :
    ∀ (seen : List String) (r : Observation), r ∈ (diffLoop seen cands).1 →
      cands.find? (fun c => c.id == r.id) = some r := by
  induction cands with
  | nil => intro seen r hr; simp [diffLoop] at hr
  | cons a rest ih =>
    intro seen r hr
    by_cases h : a.id ∈ seen
    · have hr2 : r ∈ (diffLoop seen rest).1 := by simpa [diffLoop, h] using hr
      have hne : a.id ≠ r.id := by
        intro he
        exact diffLoop_fst_id_not_mem rest seen r hr2 (he ▸ h)
      rw [List.find?_cons_of_neg _ (by simpa using hne)]
      exact ih seen r hr2
    · have hr2 : r = a ∨ r ∈ (diffLoop (seen ++ [a.id]) rest).1 := by
        simpa [diffLoop, h] using hr
      rcases hr2 with h1 | h2
      · subst h1
        rw [List.find?_cons_of_pos _ (by simp)]
      · have hne : a.id ≠ r.id := by
          intro he
          exact diffLoop_fst_id_not_mem rest (seen ++ [a.id]) r h2
            (he ▸ List.mem_append_right _ (by simp))
        rw [List.find?_cons_of_neg _ (by simpa using hne)]
        exact ih (seen ++ [a.id]) r h2

theorem diffLoop_fst_filter (cands : List Observation) :
    ∀ seen : List String, ((cands.map fun o => o.id).Nodup) →
      (diffLoop seen cands).1 = cands.filter fun c => decide (c.id ∉ seen) := by
  induction cands with
  | nil => intro seen _; simp [diffLoop]
  | cons a rest ih =>
    intro seen hnd
    rw [List.map_cons, List.nodup_cons] at hnd
    by_cases h : a.id ∈ seen
    · have : (diffLoop seen (a :: rest)).1 = (diffLoop seen rest).1 := by
        simp [diffLoop, h]
      rw [this, List.filter_cons_of_neg (by simpa using h)]
      exact ih seen hnd.2
    · have hfst : (diffLoop seen (a :: rest)).1 = a :: (diffLoop (seen ++ [a.id]) rest).1 := by
        simp [diffLoop, h]
      rw [hfst, List.filter_cons_of_pos (by simpa using h), ih (seen ++ [a.id]) hnd.2]
      congr 1
      apply List.filter_congr
      intro c hc
      have hne : c.id ≠ a.id := by
        intro he
        exact hnd.1 (he ▸ List.mem_map_of_mem (fun o => o.id) hc)
      simp [List.mem_append, hne]

/-! ### Lemmas about the store -/

theorem lookupSeen_setSeen (k : String) (v : List String) :
    ∀ s : SeenSet, lookupSeen k (setSeen k v s) = some v := by
  intro s
  induction s with
  | nil => simp [setSeen, lookupSeen]
  | cons e rest ih =>
    by_cases h : e.1 = k
    · simp [setSeen, h, lookupSeen]
    · simp [setSeen, h, lookupSeen, ih]

/-- After the line 229-230 initialization, the county's id list is the
previously stored list, or `[]` when the county had no entry. -/
theorem get_new_alerts_start (alert_id : String) (prev : SeenSet) :
    (lookupSeen alert_id
        (match lookupSeen alert_id prev with
          | none => setSeen alert_id [] prev
          | some _ => prev)).getD []
      = (lookupSeen alert_id prev).getD [] := by
  cases h : lookupSeen alert_id prev with
  | none => simp [h, lookupSeen_setSeen]
  | some v => simp [h]

/-- `get_new_alerts` unfolded through the initialization step. -/
theorem get_new_alerts_eq (alert_id : String) (cands : List Observation) (prev : SeenSet) :
    get_new_alerts alert_id cands prev
      = ((diffLoop ((lookupSeen alert_id prev).getD []) cands).1,
         setSeen alert_id (diffLoop ((lookupSeen alert_id prev).getD []) cands).2
           (match lookupSeen alert_id prev with
             | none => setSeen alert_id [] prev
             | some _ => prev)) := by
  simp only [get_new_alerts]
  rw [get_new_alerts_start]

/-- The stored list after `get_new_alerts`. -/
theorem get_new_alerts_lookup (alert_id : String) (cands : List Observation) (prev : SeenSet) :
    lookupSeen alert_id (get_new_alerts alert_id cands prev).2
      = some (diffLoop ((lookupSeen alert_id prev).getD []) cands).2 := by
  rw [get_new_alerts_eq]
  exact lookupSeen_setSeen _ _ _

theorem diffLoop_fst_sublist (cands : List Observation) :
    ∀ seen : List String, (diffLoop seen cands).1.Sublist cands := by
  induction cands with
  | nil => intro seen; simp [diffLoop]
  | cons a rest ih =>
    intro seen
    by_cases h : a.id ∈ seen
    · have hfst : (diffLoop seen (a :: rest)).1 = (diffLoop seen rest).1 := by
        simp [diffLoop, h]
      rw [hfst]
      exact (ih seen).trans (List.sublist_cons_self a rest)
    · have hfst : (diffLoop seen (a :: rest)).1 = a :: (diffLoop (seen ++ [a.id]) rest).1 := by
        simp [diffLoop, h]
      rw [hfst]
      exact List.Sublist.cons₂ a (ih (seen ++ [a.id]))

/-- Running the diff a second time, from the state left by a first run
over the same candidates, yields nothing new. -/
theorem get_new_alerts_twice (alert_id : String) (cands : List Observation) (prev : SeenSet) :
    (get_new_alerts alert_id cands (get_new_alerts alert_id cands prev).2).1 = [] := by
  rw [get_new_alerts_eq alert_id cands (get_new_alerts alert_id cands prev).2]
  simp only [get_new_alerts_lookup, Option.getD_some]
  exact diffLoop_fst_of_all_seen cands _
    fun c hc => mem_id_diffLoop_snd cands _ c hc

/-- What the caller of the cycle sees is always a success carrying the
diff result, whatever the write outcome. -/
theorem get_new_alerts_cycle_fst (alert_id : String) (cands : List Observation)
    (prev : SeenSet) (w : Except String Unit) :
    (get_new_alerts_cycle alert_id cands prev w).1
      = Except.ok (get_new_alerts alert_id cands prev).1 := by
  by_cases h : (get_new_alerts alert_id cands prev).1.isEmpty <;>
    cases w <;> simp [get_new_alerts_cycle, h]

/-- The in-memory seen set after the cycle is the diff result's updated
set, whatever the write outcome. -/
theorem get_new_alerts_cycle_mem (alert_id : String) (cands : List Observation)
    (prev : SeenSet) (w : Except String Unit) :
    (get_new_alerts_cycle alert_id cands prev w).2.1
      = (get_new_alerts alert_id cands prev).2 := by
  by_cases h : (get_new_alerts alert_id cands prev).1.isEmpty <;>
    cases w <;> simp [get_new_alerts_cycle, h]

/-! ### Concrete fixtures used by witnesses and counterexamples -/

/-- A record with the given id and fixed filler fields, for exercising
the diff engine (whose behaviour depends only on `id`). -/
def obsOf (i : String) : Observation :=
  ⟨i, ("Cerulean Warbler"), ("Setophaga cerulea"), ("1"),
   ("Apr 25 2025"), ("Test Location"), ("Test Observer"), ("u")⟩

/-- A second record carrying an id already used by `obsOf`, with
different display fields, to exercise duplicate-id candidates. -/
def obsDup (i : String) : Observation :=
  ⟨i, ("Duplicate Species"), (""), ("2"),
   ("Apr 26 2025"), ("Other Location"), ("Other Observer"), ("u2")⟩

/-- The fill cell of the tier-2 observer markup: the hidden label span
followed by the span holding the observer's name. -/
def tier2Cell : FillCell :=
  ⟨[⟨[("is-visuallyHidden")], ("Observed by:")⟩, ⟨[], ("Jane Doe")⟩]⟩

/-- A card exercising only the tier-2 observer structure: no hidden label
whose text is exactly `Observer:` (tier 1 cannot fire), and a user icon
sitting inside `div.GridFlex-cell` inside `div.GridFlex--flex GridFlex`,
whose fill cell holds the hidden label and then the name. -/
def tier2Card : Card :=
  { idAttr := some ("obs-OBS777")
    dateLink := none
    speciesLink := none
    countContainer := none
    locLink := none
    hiddenLabels := [⟨("Observed by:"), some ⟨[], ("Jane Doe")⟩⟩]
    userIcon := some ⟨[
      ⟨("div"), [("GridFlex-cell"), ("u-sizeFit")], none,
        ("<div class=GridFlex-cell u-sizeFit><svg class=Icon Icon--user></svg></div>")⟩,
      ⟨("div"), [("GridFlex--flex"), ("GridFlex")], some tier2Cell,
        ("<div class=GridFlex GridFlex--flex>...</div>")⟩,
      ⟨("div"), [("Observation-meta")], none, ("<div class=Observation-meta>...</div>")⟩]⟩ }

/-- A card whose `.Observation` element has no `id` attribute and no
checklist link. -/
def noIdCard : Card :=
  { idAttr := none
    dateLink := none
    speciesLink := none
    countContainer := none
    locLink := none
    hiddenLabels := []
    userIcon := none }

/-- A card whose maps link and observer-label sibling exist but carry
only whitespace text. -/
def emptyTextCard : Card :=
  { idAttr := some ("obs-OBS888")
    dateLink := none
    speciesLink := none
    countContainer := none
    locLink := some ⟨("https://www.google.com/maps/search/?api=1&query=44.5,-89.5"), ("  ")⟩
    hiddenLabels := [⟨(" Observer: "), some ⟨[], (" ")⟩⟩]
    userIcon := none }

/-- A card with none of the optional structure present. -/
def bareCard : Card :=
  { idAttr := some ("obs-OBS999")
    dateLink := none
    speciesLink := none
    countContainer := none
    locLink := none
    hiddenLabels := []
    userIcon := none }

end EBirdFetcher

open EBirdFetcher

/-- C1: `get_new_alerts` returns exactly the candidates whose ids are not
in the stored list for the county (in input order, stated over candidate
lists with pairwise-distinct ids, the general case being settled by C10's
first-occurrence rule), keeps them in candidate order (a sublist of the
input), afterwards stores the ids of every returned record, and on a
first-ever check initializes the entry and returns every candidate. -/
theorem claim_C1_diff_semantics (alert_id : String) (cands : List Observation)
    (prev : SeenSet) :
    (get_new_alerts alert_id cands prev).1.Sublist cands
    ∧ ((cands.map fun o => o.id).Nodup →
        (get_new_alerts alert_id cands prev).1
          = cands.filter fun c => decide (c.id ∉ (lookupSeen alert_id prev).getD []))
    ∧ (∀ r ∈ (get_new_alerts alert_id cands prev).1,
        r.id ∈ (lookupSeen alert_id (get_new_alerts alert_id cands prev).2).getD [])
    ∧ (lookupSeen alert_id prev = none →
        lookupSeen alert_id (get_new_alerts alert_id cands prev).2
            = some ((get_new_alerts alert_id cands prev).1.map fun o => o.id)
          ∧ ((cands.map fun o => o.id).Nodup →
              (get_new_alerts alert_id cands prev).1 = cands)) := by
  refine ⟨?_, ?_, ?_, ?_⟩
  · rw [get_new_alerts_eq]
    exact diffLoop_fst_sublist cands _
  · intro hnd
    rw [get_new_alerts_eq]
    exact diffLoop_fst_filter cands _ hnd
  · intro r hr
    rw [get_new_alerts_lookup, Option.getD_some, diffLoop_snd]
    refine List.mem_append_right _ ?_
    rw [get_new_alerts_eq] at hr
    exact List.mem_map_of_mem (fun o => o.id) hr
  · intro hnone
    constructor
    · rw [get_new_alerts_lookup, get_new_alerts_eq, hnone]
      simp only [Option.getD_none]
      rw [diffLoop_snd]
      simp
    · intro hnd
      rw [get_new_alerts_eq, hnone]
      simp only [Option.getD_none]
      rw [diffLoop_fst_filter cands [] hnd]
      simp

/-- Witness for C1 at the spec's first-cycle scenario: empty store,
candidates with ids 1001 and 1002. -/
theorem claim_C1_diff_semantics_witness :
    (get_new_alerts ("FEED1") [obsOf ("1001"), obsOf ("1002")] []).1
        = [obsOf ("1001"), obsOf ("1002")]
    ∧ (obsOf ("1001")).id
        ∈ (lookupSeen ("FEED1")
            (get_new_alerts ("FEED1") [obsOf ("1001"), obsOf ("1002")] []).2).getD []
    ∧ lookupSeen ("FEED1") (get_new_alerts ("FEED1") [obsOf ("1001"), obsOf ("1002")] []).2
        = some [("1001"), ("1002")] := by
  have h := claim_C1_diff_semantics ("FEED1") [obsOf ("1001"), obsOf ("1002")] []
  refine ⟨(h.2.2.2 rfl).2 (by decide), h.2.2.1 (obsOf ("1001")) (by decide), ?_⟩
  rw [(h.2.2.2 rfl).1]
  decide

/-- C2: running the diff a second time in succession with the same
candidate set, starting from the first run's updated store, yields an
empty new-record list. -/
theorem claim_C2_idempotent_dedup (alert_id : String) (cands : List Observation)
    (prev : SeenSet) :
    (get_new_alerts alert_id cands (get_new_alerts alert_id cands prev).2).1 = [] :=
  get_new_alerts_twice alert_id cands prev

/-- C3: a malformed fragment is skipped while every well-formed fragment
still yields its record (a 3-good-1-malformed document yields exactly the
3 good records, in order), the parse of a fragmentless document is `[]`
rather than an error, and in general the parse is the total function
keeping exactly the successful extractions — no exception escapes. -/
theorem claim_C3_fragment_isolation (c1 c2 c3 : Card) (e : String)
    (frags : List Fragment) :
    fetch_alerts [Fragment.card c1, Fragment.card c2, Fragment.malformed e, Fragment.card c3]
        = [extractObservation c1, extractObservation c2, extractObservation c3]
    ∧ fetch_alerts [] = []
    ∧ fetch_alerts frags = frags.filterMap fun f => (extractFragment f).toOption := by
  refine ⟨by simp [fetch_alerts, extractFragment], rfl, ?_⟩
  induction frags with
  | nil => rfl
  | cons f rest ih =>
    cases f with
    | card c => simp [fetch_alerts, extractFragment, Except.toOption, ih]
    | malformed m => simp [fetch_alerts, extractFragment, Except.toOption, ih]

/-- Counterexample to C4: with the storage file missing and the
directory-creation call failing (as `os.makedirs` does, e.g., when the
storage path has an empty directory component), the load raises — it
does NOT return the empty mapping. -/
theorem claim_C4_counterexample :
    load_previous_alerts (fun _ => none) (Except.error ("FileNotFoundError")) none
        = Except.error ("FileNotFoundError")
    ∧ load_previous_alerts (fun _ => none) (Except.error ("FileNotFoundError")) none
        ≠ Except.ok ([] : SeenSet) := by
  refine ⟨rfl, ?_⟩
  intro h
  simp [load_previous_alerts] at h

/-- C4 amended: on the content path the load never raises —
undeserializable content is caught, logged and yields the empty mapping —
and a missing file yields the empty mapping when the unguarded
`os.makedirs` call succeeds; but when that call fails its exception
propagates to the caller, and that missing-file branch is the only place
an error can escape from. -/
theorem claim_C4_load_paths (deserialize : String → Option SeenSet)
    (makedirsResult : Except String Unit) (content : Option String) :
    (∀ s, content = some s → deserialize s = none →
        load_previous_alerts deserialize makedirsResult content = Except.ok [])
    ∧ (content = none → makedirsResult = Except.ok () →
        load_previous_alerts deserialize makedirsResult content = Except.ok [])
    ∧ (∀ e, content = none → makedirsResult = Except.error e →
        load_previous_alerts deserialize makedirsResult content = Except.error e)
    ∧ (∀ e, load_previous_alerts deserialize makedirsResult content = Except.error e →
        content = none ∧ makedirsResult = Except.error e) := by
  refine ⟨?_, ?_, ?_, ?_⟩
  · intro s hs hd
    rw [hs]
    simp [load_previous_alerts, hd]
  · intro hc hm
    rw [hc, hm]
    rfl
  · intro e hc hm
    rw [hc, hm]
    rfl
  · intro e he
    cases content with
    | some s =>
      exfalso
      revert he
      simp only [load_previous_alerts]
      cases deserialize s <;> simp
    | none =>
      cases makedirsResult with
      | ok u => exact absurd he (by simp [load_previous_alerts])
      | error e2 =>
        refine ⟨rfl, ?_⟩
        simp only [load_previous_alerts, Except.error.injEq] at he
        rw [he]

/-- Witness for the amended C4: malformed content loads as the empty
mapping, a missing file with a successful directory creation loads as
the empty mapping, and a missing file with a failing directory creation
propagates the error. -/
theorem claim_C4_load_paths_witness :
    load_previous_alerts (fun _ => none) (Except.ok ()) (some ("not valid json"))
        = Except.ok []
    ∧ load_previous_alerts (fun _ => none) (Except.ok ()) none = Except.ok []
    ∧ load_previous_alerts (fun _ => none) (Except.error ("PermissionError")) none
        = Except.error ("PermissionError") :=
  ⟨(claim_C4_load_paths (fun _ => none) (Except.ok ()) (some ("not valid json"))).1
      ("not valid json") rfl rfl,
   (claim_C4_load_paths (fun _ => none) (Except.ok ()) none).2.1 rfl rfl,
   (claim_C4_load_paths (fun _ => none) (Except.error ("PermissionError")) none).2.2.1
      ("PermissionError") rfl rfl⟩

/-- Counterexample to C5: with an empty store, one candidate record and a
failing write, `get_new_alerts` still returns the record as a plain
success (no failure result propagates to the caller), and the very next
cycle with the same candidate — in the same process — finds nothing new,
because the in-memory update WAS committed. -/
theorem claim_C5_counterexample :
    (get_new_alerts_cycle ("FEED1") [obsOf ("1001")] [] (Except.error ("disk full"))).1
        = Except.ok [obsOf ("1001")]
    ∧ (get_new_alerts_cycle ("FEED1") [obsOf ("1001")]
          (get_new_alerts_cycle ("FEED1") [obsOf ("1001")] []
            (Except.error ("disk full"))).2.1
          (Except.ok ())).1
        = Except.ok [] :=
  ⟨rfl, rfl⟩

/-- C5 amended: when the durable write fails, `_save_previous_alerts`
catches and merely logs the exception, so the caller receives the new
records as a success value, the in-memory seen-set update stays
committed, and the following cycle with the same candidates detects
nothing new (re-detection would happen only after a process restart
reloads the stale file). -/
theorem claim_C5_swallowed_write_failure (alert_id : String) (cands : List Observation)
    (prev : SeenSet) (e : String) (w2 : Except String Unit) :
    (get_new_alerts_cycle alert_id cands prev (Except.error e)).1
        = Except.ok (get_new_alerts alert_id cands prev).1
    ∧ (get_new_alerts_cycle alert_id cands prev (Except.error e)).2.1
        = (get_new_alerts alert_id cands prev).2
    ∧ (get_new_alerts_cycle alert_id cands
          (get_new_alerts_cycle alert_id cands prev (Except.error e)).2.1 w2).1
        = Except.ok [] := by
  refine ⟨get_new_alerts_cycle_fst alert_id cands prev (Except.error e),
    get_new_alerts_cycle_mem alert_id cands prev (Except.error e), ?_⟩
  rw [get_new_alerts_cycle_fst, get_new_alerts_cycle_mem, get_new_alerts_twice]

/-- Counterexample to C6: during a persist the truncated (empty) file is
visible, and it is neither the previous nor the new complete snapshot. -/
theorem claim_C6_counterexample :
    ("") ∈ saveFileStates ("OLD SNAPSHOT") ("NEW SNAPSHOT")
    ∧ ("") ≠ ("OLD SNAPSHOT")
    ∧ ("") ≠ ("NEW SNAPSHOT") := by
  refine ⟨by simp [saveFileStates], by decide, by decide⟩

/-- C6 amended: the persist is NOT atomic — `_save_previous_alerts` opens
the storage file itself in write mode, which truncates it in place before
the dump, so whenever the old and new serializations are non-empty a
concurrent reader can observe a file state that is neither complete
snapshot. -/
theorem claim_C6_not_atomic (oldContent newContent : String)
    (h1 : oldContent ≠ ("")) (h2 : newContent ≠ ("")) :
    ∃ s ∈ saveFileStates oldContent newContent, s ≠ oldContent ∧ s ≠ newContent :=
  ⟨(""), by simp [saveFileStates], fun hc => h1 hc.symm, fun hc => h2 hc.symm⟩

/-- Witness for the amended C6. -/
theorem claim_C6_not_atomic_witness :
    ∃ s ∈ saveFileStates ("OLD SNAPSHOT") ("NEW SNAPSHOT"),
      s ≠ ("OLD SNAPSHOT") ∧ s ≠ ("NEW SNAPSHOT") :=
  claim_C6_not_atomic ("OLD SNAPSHOT") ("NEW SNAPSHOT") (by decide) (by decide)

/-- C7, evaluated at the failing input: `tier2Card` exercises only the
tier-2 structure (its only hidden label is not `Observer:`, so tier 1
yields nothing; the user icon's ancestors include a `div` with class
`GridFlex--flex` whose fill cell holds the hidden label and then the name
`Jane Doe`). The claim says extraction yields `Jane Doe`; the code yields
the sentinel, because `find_parent('.GridFlex--flex')` matches tag names,
never CSS classes, so the tier-2 (and tier-3) navigation never finds its
container. -/
theorem claim_C7_tier2_unreachable :
    (extractObservation tier2Card).observer = ("eBird User")
    ∧ (∀ l ∈ tier2Card.hiddenLabels, pyStrip l.text ≠ ("Observer:"))
    ∧ (∃ ic, tier2Card.userIcon = some ic
        ∧ ∃ anc ∈ ic.ancestors, anc.classes.contains ("GridFlex--flex")
            ∧ anc.fillCell = some tier2Cell)
    ∧ pyStrip (tier2Cell.spans.getD 1 ⟨[], ("")⟩).text = ("Jane Doe") := by
  refine ⟨by decide, by decide, ?_, by decide⟩
  refine ⟨_, rfl, ?_⟩
  refine ⟨_, List.mem_cons_of_mem _ (List.mem_cons_self _ _), by decide, rfl⟩

/-- Counterexample to C8: a card without the per-record `id` attribute
extracts with an EMPTY id — the synthetic, logged fallback exists only
for the checklist URL, not for the id. -/
theorem claim_C8_counterexample :
    (extractObservation noIdCard).id = ("")
    ∧ (extractObservation noIdCard).checklistUrl = ("https://ebird.org/checklist/") := by
  exact ⟨by decide, by decide⟩

/-- C8 amended: a record's id is always the card's `id` attribute with
the `obs-OBS` prefix stripped — the empty string when the attribute is
absent, with no synthetic non-empty fallback; the logged fallback instead
synthesizes the checklist URL from that id when the checklist link is
missing. -/
theorem claim_C8_id_from_attribute (card : Card) :
    (extractObservation card).id = pyReplace (card.idAttr.getD ("")) ("obs-OBS") ("")
    ∧ (card.idAttr = none → (extractObservation card).id = (""))
    ∧ (card.dateLink = none →
        (extractObservation card).checklistUrl
          = ("https://ebird.org/checklist/") ++ (extractObservation card).id) := by
  refine ⟨rfl, ?_, ?_⟩
  · intro h
    simp [extractObservation, h]
    decide
  · intro h
    simp [extractObservation, h]

/-- Witness for the amended C8 at the attribute-less card. -/
theorem claim_C8_id_from_attribute_witness :
    (extractObservation noIdCard).id = pyReplace (noIdCard.idAttr.getD ("")) ("obs-OBS") ("")
    ∧ (extractObservation noIdCard).id = ("")
    ∧ (extractObservation noIdCard).checklistUrl
        = ("https://ebird.org/checklist/") ++ (extractObservation noIdCard).id :=
  ⟨(claim_C8_id_from_attribute noIdCard).1,
   (claim_C8_id_from_attribute noIdCard).2.1 rfl,
   (claim_C8_id_from_attribute noIdCard).2.2 rfl⟩

/-- Counterexample to C9: when the maps link and the observer label's
sibling span exist but hold only whitespace, both location and observer
extract to the EMPTY string, not to the sentinels. -/
theorem claim_C9_counterexample :
    (extractObservation emptyTextCard).location = ("")
    ∧ (extractObservation emptyTextCard).observer = ("") := by
  exact ⟨by decide, by decide⟩

/-- C9 amended: the location and observer keys are always present, and
the sentinels are used exactly when the corresponding markup is absent —
`Unknown Location` when there is no maps link (otherwise the stripped
link text, possibly empty), `eBird User` when the label loop yields
nothing and there is no user icon; a present element with blank text
yields the empty string instead of a sentinel. -/
theorem claim_C9_sentinels_on_absence (card : Card) :
    (card.locLink = none → (extractObservation card).location = ("Unknown Location"))
    ∧ (∀ ll, card.locLink = some ll →
        (extractObservation card).location = pyStrip ll.text)
    ∧ (observerLabelLoop card.hiddenLabels ("eBird User") = ("eBird User") →
        card.userIcon = none →
        (extractObservation card).observer = ("eBird User")) := by
  refine ⟨?_, ?_, ?_⟩
  · intro h
    simp [extractObservation, h]
  · intro ll h
    simp [extractObservation, h]
  · intro h1 h2
    simp [extractObservation, h1, h2]

/-- Witness for the amended C9 on the structureless card. -/
theorem claim_C9_sentinels_on_absence_witness :
    (extractObservation bareCard).location = ("Unknown Location")
    ∧ (extractObservation bareCard).observer = ("eBird User") :=
  ⟨(claim_C9_sentinels_on_absence bareCard).1 rfl,
   (claim_C9_sentinels_on_absence bareCard).2.2 (by decide) rfl⟩

/-- C10: the list returned by `get_new_alerts` holds at most one record
per id — its id list is duplicate-free — and each returned record is the
first candidate carrying its id, because each new record's id is appended
to the county's list before later candidates are compared. -/
theorem claim_C10_first_occurrence_only (alert_id : String) (cands : List Observation)
    (prev : SeenSet) :
    ((get_new_alerts alert_id cands prev).1.map fun o => o.id).Nodup
    ∧ ∀ r ∈ (get_new_alerts alert_id cands prev).1,
        cands.find? (fun c => c.id == r.id) = some r := by
  constructor
  · rw [get_new_alerts_eq]
    exact diffLoop_fst_id_nodup cands _
  · intro r hr
    rw [get_new_alerts_eq] at hr
    exact diffLoop_fst_find cands _ r hr

/-- Witness for C10 on a candidate list with a duplicated id: only the
first occurrence is returned and found. -/
theorem claim_C10_first_occurrence_only_witness :
    ((get_new_alerts ("FEED1") [obsOf ("1001"), obsDup ("1001")] []).1.map
        fun o => o.id).Nodup
    ∧ [obsOf ("1001"), obsDup ("1001")].find?
          (fun c => c.id == (obsOf ("1001")).id)
        = some (obsOf ("1001")) :=
  ⟨(claim_C10_first_occurrence_only ("FEED1") [obsOf ("1001"), obsDup ("1001")] []).1,
   (claim_C10_first_occurrence_only ("FEED1") [obsOf ("1001"), obsDup ("1001")] []).2
     (obsOf ("1001")) (by decide)⟩
